import Mathlib

set_option maxRecDepth 100000

/-!
Shallow embedding of the scigolib/matlab v5 MAT-file engine.

Bytes are modelled as `Nat` values kept below 256 by construction
(every multi-byte write reduces its argument modulo the word size).
IEEE-754 payloads (`[]float64`, `[]float32`) are modelled by their bit
patterns as `Nat`, since the Go code only moves bits through
`math.Float64bits` / `math.Float64frombits`, which are mutually inverse.
Go `interface{}` payload values are modelled by the closed union `GoValue`,
with `GoValue.gnil` standing for the Go `nil` interface value.
-/

namespace Matlab

/-- Byte order used for multi-byte reads and writes
(`binary.LittleEndian` / `binary.BigEndian`). -/
inductive ByteOrder where
  | le
  | be
deriving DecidableEq, Repr

/-- `binary.ByteOrder.PutUint16`: two bytes of `x % 2^16` in the given order. -/
def putUint16 (o : ByteOrder) (x : Nat) : List Nat :=
  let y := x % 65536
  match o with
  | .le => [y % 256, y / 256 % 256]
  | .be => [y / 256 % 256, y % 256]

/-- `binary.ByteOrder.PutUint32`: four bytes of `x % 2^32` in the given order. -/
def putUint32 (o : ByteOrder) (x : Nat) : List Nat :=
  let y := x % 4294967296
  match o with
  | .le => [y % 256, y / 256 % 256, y / 65536 % 256, y / 16777216 % 256]
  | .be => [y / 16777216 % 256, y / 65536 % 256, y / 256 % 256, y % 256]

/-- `binary.ByteOrder.PutUint64`: eight bytes of `x % 2^64` in the given order. -/
def putUint64 (o : ByteOrder) (x : Nat) : List Nat :=
  let y := x % 18446744073709551616
  match o with
  | .le => [y % 256, y / 256 % 256, y / 65536 % 256, y / 16777216 % 256,
            y / 4294967296 % 256, y / 1099511627776 % 256,
            y / 281474976710656 % 256, y / 72057594037927936 % 256]
  | .be => [y / 72057594037927936 % 256, y / 281474976710656 % 256,
            y / 1099511627776 % 256, y / 4294967296 % 256,
            y / 16777216 % 256, y / 65536 % 256, y / 256 % 256, y % 256]

/-- `binary.ByteOrder.Uint16` on the first two bytes of a list. -/
def getUint16 (o : ByteOrder) (bs : List Nat) : Nat :=
  match o with
  | .le => bs.getD 0 0 + bs.getD 1 0 * 256
  | .be => bs.getD 0 0 * 256 + bs.getD 1 0

/-- `binary.ByteOrder.Uint32` on the first four bytes of a list. -/
def getUint32 (o : ByteOrder) (bs : List Nat) : Nat :=
  match o with
  | .le => bs.getD 0 0 + bs.getD 1 0 * 256 + bs.getD 2 0 * 65536 +
           bs.getD 3 0 * 16777216
  | .be => bs.getD 0 0 * 16777216 + bs.getD 1 0 * 65536 + bs.getD 2 0 * 256 +
           bs.getD 3 0

/-- `binary.ByteOrder.Uint64` on the first eight bytes of a list. -/
def getUint64 (o : ByteOrder) (bs : List Nat) : Nat :=
  match o with
  | .le => bs.getD 0 0 + bs.getD 1 0 * 256 + bs.getD 2 0 * 65536 +
           bs.getD 3 0 * 16777216 + bs.getD 4 0 * 4294967296 +
           bs.getD 5 0 * 1099511627776 + bs.getD 6 0 * 281474976710656 +
           bs.getD 7 0 * 72057594037927936
  | .be => bs.getD 0 0 * 72057594037927936 + bs.getD 1 0 * 281474976710656 +
           bs.getD 2 0 * 1099511627776 + bs.getD 3 0 * 4294967296 +
           bs.getD 4 0 * 16777216 + bs.getD 5 0 * 65536 + bs.getD 6 0 * 256 +
           bs.getD 7 0

/-- Reinterpret an unsigned byte as Go `int8` (two's complement). -/
def toInt8 (u : Nat) : Int :=
  if u < 128 then (u : Int) else (u : Int) - 256

/-- Reinterpret a 16-bit word as Go `int16` (two's complement). -/
def toInt16 (u : Nat) : Int :=
  if u < 32768 then (u : Int) else (u : Int) - 65536

/-- Reinterpret a 32-bit word as Go `int32` (two's complement). -/
def toInt32 (u : Nat) : Int :=
  if u < 2147483648 then (u : Int) else (u : Int) - 4294967296

/-- Reinterpret a 64-bit word as Go `int64` (two's complement). -/
def toInt64 (u : Nat) : Int :=
  if u < 9223372036854775808 then (u : Int) else (u : Int) - 18446744073709551616

/-- `types.DataType`: the closed enumeration of MATLAB data types. -/
inductive DataType where
  | double
  | single
  | int8
  | uint8
  | int16
  | uint16
  | int32
  | uint32
  | int64
  | uint64
  | char
  | struct
  | cellArray
  | object
  | unknown
deriving DecidableEq, Repr

/-- Go `interface{}` values that flow through `types.Variable.Data` and
`Parser.convertData`: one variant per concrete Go slice type plus the
string, raw-bytes and `*types.NumericArray` variants. Integer slices carry
`Int` element values; float slices carry IEEE bit patterns as `Nat`.
`gnil` is the Go `nil` interface value. -/
inductive GoValue where
  | gnil
  | f64s (xs : List Nat)
  | f32s (xs : List Nat)
  | i8s (xs : List Int)
  | u8s (xs : List Nat)
  | i16s (xs : List Int)
  | u16s (xs : List Nat)
  | i32s (xs : List Int)
  | u32s (xs : List Nat)
  | i64s (xs : List Int)
  | u64s (xs : List Nat)
  | utf8 (bs : List Nat)
  | raw (bs : List Nat)
  | numericArray (re im : GoValue) (dims : List Int) (ty : DataType)
deriving DecidableEq, Repr

/-- Number of scalar elements in a decoded slice variant. -/
def goValueLen : GoValue → Nat
  | .f64s xs => xs.length
  | .f32s xs => xs.length
  | .i8s xs => xs.length
  | .u8s xs => xs.length
  | .i16s xs => xs.length
  | .u16s xs => xs.length
  | .i32s xs => xs.length
  | .u32s xs => xs.length
  | .i64s xs => xs.length
  | .u64s xs => xs.length
  | .utf8 bs => bs.length
  | .raw bs => bs.length
  | .gnil => 0
  | .numericArray _ _ _ _ => 0

/-- `types.Variable`: name bytes, dimensions, declared data type, payload,
complex and sparse flags. The Go `Attributes` map is not touched by the v5
engine and is omitted. -/
structure Variable where
  name : List Nat
  dimensions : List Int
  dataType : DataType
  data : GoValue
  isComplex : Bool
  isSparse : Bool
deriving DecidableEq, Repr

/-- MATLAB data type constant `miINT8`. -/
def miINT8 : Nat := 1

/-- MATLAB data type constant `miUINT8`. -/
def miUINT8 : Nat := 2

/-- MATLAB data type constant `miINT16`. -/
def miINT16 : Nat := 3

/-- MATLAB data type constant `miUINT16`. -/
def miUINT16 : Nat := 4

/-- MATLAB data type constant `miINT32`. -/
def miINT32 : Nat := 5

/-- MATLAB data type constant `miUINT32`. -/
def miUINT32 : Nat := 6

/-- MATLAB data type constant `miSINGLE`. -/
def miSINGLE : Nat := 7

/-- MATLAB data type constant `miDOUBLE`. -/
def miDOUBLE : Nat := 9

/-- MATLAB data type constant `miINT64`. -/
def miINT64 : Nat := 12

/-- MATLAB data type constant `miUINT64`. -/
def miUINT64 : Nat := 13

/-- MATLAB data type constant `miMATRIX`. -/
def miMATRIX : Nat := 14

/-- MATLAB data type constant `miCOMPRESSED`. -/
def miCOMPRESSED : Nat := 15

/-- MATLAB data type constant `miUTF8`. -/
def miUTF8 : Nat := 16

/-- MATLAB array class constant `mxCELL_CLASS`. -/
def mxCELL_CLASS : Nat := 1

/-- MATLAB array class constant `mxSTRUCT_CLASS`. -/
def mxSTRUCT_CLASS : Nat := 2

/-- MATLAB array class constant `mxOBJECT_CLASS`. -/
def mxOBJECT_CLASS : Nat := 3

/-- MATLAB array class constant `mxCHAR_CLASS`. -/
def mxCHAR_CLASS : Nat := 4

/-- MATLAB array class constant `mxDOUBLE_CLASS`. -/
def mxDOUBLE_CLASS : Nat := 6

/-- MATLAB array class constant `mxSINGLE_CLASS`. -/
def mxSINGLE_CLASS : Nat := 7

/-- MATLAB array class constant `mxINT8_CLASS`. -/
def mxINT8_CLASS : Nat := 8

/-- MATLAB array class constant `mxUINT8_CLASS`. -/
def mxUINT8_CLASS : Nat := 9

/-- MATLAB array class constant `mxINT16_CLASS`. -/
def mxINT16_CLASS : Nat := 10

/-- MATLAB array class constant `mxUINT16_CLASS`. -/
def mxUINT16_CLASS : Nat := 11

/-- MATLAB array class constant `mxINT32_CLASS`. -/
def mxINT32_CLASS : Nat := 12

/-- MATLAB array class constant `mxUINT32_CLASS`. -/
def mxUINT32_CLASS : Nat := 13

/-- MATLAB array class constant `mxINT64_CLASS`. -/
def mxINT64_CLASS : Nat := 14

/-- MATLAB array class constant `mxUINT64_CLASS`. -/
def mxUINT64_CLASS : Nat := 15

/-- `classToDataType` from the v5 package: maps a MATLAB class id to the
abstract data type. -/
def classToDataType (cls : Nat) : DataType :=
  if cls = mxDOUBLE_CLASS then .double
  else if cls = mxSINGLE_CLASS then .single
  else if cls = mxINT8_CLASS then .int8
  else if cls = mxUINT8_CLASS then .uint8
  else if cls = mxINT16_CLASS then .int16
  else if cls = mxUINT16_CLASS then .uint16
  else if cls = mxINT32_CLASS then .int32
  else if cls = mxUINT32_CLASS then .uint32
  else if cls = mxINT64_CLASS then .int64
  else if cls = mxUINT64_CLASS then .uint64
  else if cls = mxCHAR_CLASS then .char
  else if cls = mxSTRUCT_CLASS then .struct
  else if cls = mxCELL_CLASS then .cellArray
  else .unknown

/-- `Writer.dataTypeToClass`: maps the abstract data type to the MATLAB
class constant, with `mxDOUBLE_CLASS` as fallback. -/
def dataTypeToClass (dt : DataType) : Nat :=
  match dt with
  | .double => mxDOUBLE_CLASS
  | .single => mxSINGLE_CLASS
  | .int8 => mxINT8_CLASS
  | .uint8 => mxUINT8_CLASS
  | .int16 => mxINT16_CLASS
  | .uint16 => mxUINT16_CLASS
  | .int32 => mxINT32_CLASS
  | .uint32 => mxUINT32_CLASS
  | .int64 => mxINT64_CLASS
  | .uint64 => mxUINT64_CLASS
  | _ => mxDOUBLE_CLASS

/-- ASCII bytes of the endian token string literal written as M, I. -/
def strMI : List Nat := [77, 73]

/-- ASCII bytes of the endian token string literal written as I, M. -/
def strIM : List Nat := [73, 77]

end Matlab

namespace Matlab

/-- Errors raised by the v5 write path (`Writer.validateVariable`,
`Writer.encodeData`, `NewWriter`). -/
inductive WriteErr where
  | invalidEndian
  | nameRequired
  | nameTooLong (n : Nat)
  | dimsRequired
  | dataRequired
  | dimNotPositive (i : Nat) (d : Int)
  | dimsOverflow
  | notNumericArray
  | missingImag
  | missingReal
  | typeMismatch (expected : DataType)
  | unsupportedType (dt : DataType)
deriving DecidableEq, Repr

/-- `math.MaxInt` on a 64-bit platform (the spec's MAX_INT64). -/
def maxInt64 : Int := 9223372036854775807

/-- The dimension loop of `Writer.validateVariable`: walks the dimensions
with index `i` and the running 64-bit signed product `total`, rejecting a
non-positive dimension and checking `total > MaxInt/d` before each
multiplication. Returns the final product. -/
def validateDimsLoop (i : Nat) (total : Int) : List Int → Except WriteErr Int
  | [] => .ok total
  | d :: rest =>
    if d ≤ 0 then .error (.dimNotPositive i d)
    else if total > maxInt64 / d then .error .dimsOverflow
    else validateDimsLoop (i + 1) (total * d) rest

/-- `Writer.validateVariable`: name non-empty and at most 63 bytes, at
least one dimension, payload present, dimensions positive without
64-bit product overflow. -/
def validateVariable (v : Variable) : Except WriteErr Unit :=
  if v.name = [] then .error .nameRequired
  else if v.name.length > 63 then .error (.nameTooLong v.name.length)
  else if v.dimensions = [] then .error .dimsRequired
  else if v.data = .gnil then .error .dataRequired
  else
    match validateDimsLoop 0 1 v.dimensions with
    | .error e => .error e
    | .ok _ => .ok ()

/-- `Writer.wrapInTag`: 8-byte regular tag (type id then size), payload,
then zero padding to the next multiple of 8. -/
def wrapInTag (o : ByteOrder) (dataType : Nat) (data : List Nat) : List Nat :=
  let size := data.length
  let padding := (8 - size % 8) % 8
  putUint32 o dataType ++ putUint32 o size ++ data ++ List.replicate padding 0

/-- `Writer.encodeFloat64Array` on IEEE bit patterns. -/
def encodeFloat64Array (o : ByteOrder) (xs : List Nat) : List Nat :=
  (xs.map (putUint64 o)).flatten

/-- `Writer.encodeFloat32Array` on IEEE bit patterns. -/
def encodeFloat32Array (o : ByteOrder) (xs : List Nat) : List Nat :=
  (xs.map (putUint32 o)).flatten

/-- `Writer.encodeInt8Array`: each element as its two's-complement byte. -/
def encodeInt8Array (xs : List Int) : List Nat :=
  xs.map (fun v => (v % 256).toNat)

/-- `Writer.encodeInt16Array`. -/
def encodeInt16Array (o : ByteOrder) (xs : List Int) : List Nat :=
  (xs.map (fun v => putUint16 o (v % 65536).toNat)).flatten

/-- `Writer.encodeUint16Array`. -/
def encodeUint16Array (o : ByteOrder) (xs : List Nat) : List Nat :=
  (xs.map (putUint16 o)).flatten

/-- `Writer.encodeInt32Array`. -/
def encodeInt32Array (o : ByteOrder) (xs : List Int) : List Nat :=
  (xs.map (fun v => putUint32 o (v % 4294967296).toNat)).flatten

/-- `Writer.encodeUint32Array`. -/
def encodeUint32Array (o : ByteOrder) (xs : List Nat) : List Nat :=
  (xs.map (putUint32 o)).flatten

/-- `Writer.encodeInt64Array`. -/
def encodeInt64Array (o : ByteOrder) (xs : List Int) : List Nat :=
  (xs.map (fun v => putUint64 o (v % 18446744073709551616).toNat)).flatten

/-- `Writer.encodeUint64Array`. -/
def encodeUint64Array (o : ByteOrder) (xs : List Nat) : List Nat :=
  (xs.map (putUint64 o)).flatten

/-- `Writer.encodeArrayFlags`: 8 data bytes (flags word with complex bit 11
and sparse bit 10, then the class id) wrapped in a `miUINT32` tag. -/
def encodeArrayFlags (o : ByteOrder) (v : Variable) : List Nat :=
  let flags := (if v.isComplex then 2048 else 0) ||| (if v.isSparse then 1024 else 0)
  wrapInTag o miUINT32 (putUint32 o flags ++ putUint32 o (dataTypeToClass v.dataType))

/-- `Writer.encodeDimensions`: dimensions as 32-bit words wrapped in a
`miINT32` tag. -/
def encodeDimensions (o : ByteOrder) (dims : List Int) : List Nat :=
  wrapInTag o miINT32 ((dims.map (fun d => putUint32 o (d % 4294967296).toNat)).flatten)

/-- `Writer.encodeName`: the raw name bytes wrapped in a `miINT8` tag. -/
def encodeName (o : ByteOrder) (name : List Nat) : List Nat :=
  wrapInTag o miINT8 name

/-- `Writer.encodeData`: selects the real or imaginary payload, checks the
payload variant against the declared data type, and wraps the raw bytes in
the matching numeric tag. -/
def encodeData (o : ByteOrder) (v : Variable) (imaginary : Bool) : Except WriteErr (List Nat) := do
  let data ←
    if v.isComplex then
      match v.data with
      | .numericArray re im _ _ =>
        if imaginary then
          if im = .gnil then .error .missingImag else .ok im
        else
          if re = .gnil then .error .missingReal else .ok re
      | _ => .error .notNumericArray
    else
      .ok v.data
  match v.dataType, data with
  | .double, .f64s xs => .ok (wrapInTag o miDOUBLE (encodeFloat64Array o xs))
  | .double, _ => .error (.typeMismatch .double)
  | .single, .f32s xs => .ok (wrapInTag o miSINGLE (encodeFloat32Array o xs))
  | .single, _ => .error (.typeMismatch .single)
  | .int8, .i8s xs => .ok (wrapInTag o miINT8 (encodeInt8Array xs))
  | .int8, _ => .error (.typeMismatch .int8)
  | .uint8, .u8s xs => .ok (wrapInTag o miUINT8 xs)
  | .uint8, _ => .error (.typeMismatch .uint8)
  | .int16, .i16s xs => .ok (wrapInTag o miINT16 (encodeInt16Array o xs))
  | .int16, _ => .error (.typeMismatch .int16)
  | .uint16, .u16s xs => .ok (wrapInTag o miUINT16 (encodeUint16Array o xs))
  | .uint16, _ => .error (.typeMismatch .uint16)
  | .int32, .i32s xs => .ok (wrapInTag o miINT32 (encodeInt32Array o xs))
  | .int32, _ => .error (.typeMismatch .int32)
  | .uint32, .u32s xs => .ok (wrapInTag o miUINT32 (encodeUint32Array o xs))
  | .uint32, _ => .error (.typeMismatch .uint32)
  | .int64, .i64s xs => .ok (wrapInTag o miINT64 (encodeInt64Array o xs))
  | .int64, _ => .error (.typeMismatch .int64)
  | .uint64, .u64s xs => .ok (wrapInTag o miUINT64 (encodeUint64Array o xs))
  | .uint64, _ => .error (.typeMismatch .uint64)
  | dt, _ => .error (.unsupportedType dt)

/-- `Writer.encodeMatrixContent`: array flags, dimensions, name, real data
and, for complex variables, imaginary data, concatenated. -/
def encodeMatrixContent (o : ByteOrder) (v : Variable) : Except WriteErr (List Nat) := do
  let realData ← encodeData o v false
  let imagData ← if v.isComplex then encodeData o v true else pure []
  .ok (encodeArrayFlags o v ++ encodeDimensions o v.dimensions ++
       encodeName o v.name ++ realData ++ imagData)

/-- `Writer.writeMatrix`: outer `miMATRIX` tag with the content length,
the content, then zero padding to the next multiple of 8. -/
def writeMatrix (o : ByteOrder) (v : Variable) : Except WriteErr (List Nat) := do
  let content ← encodeMatrixContent o v
  let padding := (8 - content.length % 8) % 8
  .ok (putUint32 o miMATRIX ++ putUint32 o content.length ++ content ++
       List.replicate padding 0)

/-- `Writer.WriteVariable`: validation followed by `writeMatrix`; on a
validation error nothing is emitted. -/
def writeVariable (o : ByteOrder) (v : Variable) : Except WriteErr (List Nat) := do
  let _ ← validateVariable v
  writeMatrix o v

/-- `NewWriter` endian-token mapping: the byte string I, M selects little
endian, M, I selects big endian, anything else is rejected. -/
def newWriterOrder (endian : List Nat) : Except WriteErr ByteOrder :=
  if endian = strIM then .ok .le
  else if endian = strMI then .ok .be
  else .error .invalidEndian

/-- `Writer.writeHeader`: 128 bytes with the description truncated to 116
bytes and zero padded, 8 reserved zero bytes, the version word 0x0100 in
the writer's byte order, and the verbatim endian token. -/
def writeHeaderBytes (o : ByteOrder) (description endian : List Nat) : List Nat :=
  description.take 116 ++ List.replicate (116 - description.length) 0 ++
  List.replicate 8 0 ++ putUint16 o 256 ++ endian

/-- A full one-variable v5 file as produced by `NewWriter` followed by one
`WriteVariable` call. -/
def v5FileBytes (endian description : List Nat) (v : Variable) : Except WriteErr (List Nat) := do
  let o ← newWriterOrder endian
  let m ← writeVariable o v
  .ok (writeHeaderBytes o description endian ++ m)

end Matlab

namespace Matlab

/-- Errors raised by the v5 read path. `eofClean` is `io.EOF` on a read
that got zero bytes; `truncated` is a short read partway through an
element (`io.ErrUnexpectedEOF`). -/
inductive PErr where
  | eofClean
  | truncated
  | invalidEndian
  | tagTooLarge
  | invalidFlagsSize
  | compressedUnsupported
  | outOfFuel
deriving DecidableEq, Repr

/-- `v5.Header`: description with trailing zero bytes trimmed, version,
verbatim endian token, detected byte order. -/
structure Header where
  description : List Nat
  version : Nat
  endianIndicator : List Nat
  order : ByteOrder
deriving DecidableEq, Repr

/-- `strings.TrimRight(s, "\x00")`: drop trailing zero bytes. -/
def trimTrailingZeros (bs : List Nat) : List Nat :=
  (bs.reverse.dropWhile (fun b => b = 0)).reverse

/-- `parseHeader` from the v5 package: bytes 0-115 are the description,
bytes 126-127 the endian token (M, I selects little endian and I, M big
endian; anything else is an error), bytes 124-125 the version read in the
detected order. -/
def parseHeader (data : List Nat) : Except PErr Header :=
  let tok := (data.drop 126).take 2
  if tok = strMI then
    .ok ⟨trimTrailingZeros (data.take 116), getUint16 .le ((data.drop 124).take 2), tok, .le⟩
  else if tok = strIM then
    .ok ⟨trimTrailingZeros (data.take 116), getUint16 .be ((data.drop 124).take 2), tok, .be⟩
  else .error .invalidEndian

/-- `v5.DataTag`: type id, payload size in bytes, small-format flag. -/
structure DataTag where
  dataType : Nat
  size : Nat
  isSmall : Bool
deriving DecidableEq, Repr

/-- `maxReasonableSize`: the 2 GiB tag-size ceiling. -/
def maxReasonableSize : Nat := 2147483648

/-- `Parser.readTag`: reads an 8-byte block; if the upper 16 bits of the
first word are in 1..4 it is a small tag (size from the upper bits, type
from the lower bits); otherwise the first word is the type id and the
second word the size, which must not exceed `maxReasonableSize`. -/
def readTag (o : ByteOrder) (s : List Nat) : Except PErr (DataTag × List Nat) :=
  if s = [] then .error .eofClean
  else if s.length < 8 then .error .truncated
  else
    let buf := s.take 8
    let rest := s.drop 8
    let firstWord := getUint32 o (buf.take 4)
    let size := firstWord / 65536
    if 0 < size ∧ size ≤ 4 then
      .ok (⟨firstWord % 65536, size, true⟩, rest)
    else
      let size2 := getUint32 o (buf.drop 4)
      if size2 > maxReasonableSize then .error .tagTooLarge
      else .ok (⟨firstWord, size2, false⟩, rest)

/-- `Parser.readData`: reads `tag.size` payload bytes, then for regular
tags skips the zero padding to the 8-byte boundary (short skips are
ignored, as the Go code discards the `io.CopyN` error). -/
def readData (tag : DataTag) (s : List Nat) : Except PErr (List Nat × List Nat) :=
  if s.length < tag.size then .error .truncated
  else
    let data := s.take tag.size
    let rest := s.drop tag.size
    let rest := if tag.isSmall then rest else rest.drop ((8 - tag.size % 8) % 8)
    .ok (data, rest)

/-- `Parser.skipData`: discard the payload and, for regular tags, the
padding; short skips are ignored. -/
def skipData (tag : DataTag) (s : List Nat) : List Nat :=
  let rest := s.drop tag.size
  if tag.isSmall then rest else rest.drop ((8 - tag.size % 8) % 8)

/-- The guarded count-and-loop pattern shared by every multi-byte case of
`Parser.convertData`: element count is `len / w`; an empty or short count
yields the empty slice, otherwise element `i` is decoded from bytes
`w*i .. w*i+w`. -/
def decodeLoop (w : Nat) (f : List Nat → α) (data : List Nat) : List α :=
  let count := data.length / w
  if count = 0 ∨ data.length < count * w then []
  else (List.range count).map (fun i => f ((data.drop (w * i)).take w))

/-- `Parser.convertData`: dispatch on the raw type id, decoding whole
elements in the active byte order; `miUINT8` is a passthrough, `miUTF8`
yields the whole payload as text, unknown ids yield the raw bytes. The
class argument is ignored, as in the source. -/
def convertData (o : ByteOrder) (data : List Nat) (dataType : Nat) (_cls : Nat) : GoValue :=
  if dataType = miDOUBLE then .f64s (decodeLoop 8 (getUint64 o) data)
  else if dataType = miSINGLE then .f32s (decodeLoop 4 (getUint32 o) data)
  else if dataType = miINT8 then .i8s (data.map toInt8)
  else if dataType = miUINT8 then .u8s data
  else if dataType = miINT16 then .i16s (decodeLoop 2 (fun bs => toInt16 (getUint16 o bs)) data)
  else if dataType = miUINT16 then .u16s (decodeLoop 2 (getUint16 o) data)
  else if dataType = miINT32 then .i32s (decodeLoop 4 (fun bs => toInt32 (getUint32 o bs)) data)
  else if dataType = miUINT32 then .u32s (decodeLoop 4 (getUint32 o) data)
  else if dataType = miINT64 then .i64s (decodeLoop 8 (fun bs => toInt64 (getUint64 o bs)) data)
  else if dataType = miUINT64 then .u64s (decodeLoop 8 (getUint64 o) data)
  else if dataType = miUTF8 then .utf8 data
  else .raw data

/-- `Parser.parseMatrixContent`: array flags (8 bytes: flags word with
complex bit 11, then class id), dimensions (32-bit words), name, real
data, and imaginary data when the complex bit is set; complex variables
get a `NumericArray` payload. -/
def parseMatrixContent (o : ByteOrder) (s0 : List Nat) : Except PErr Variable := do
  let (flagsTag, s1) ← readTag o s0
  let (flagsData, s2) ← readData flagsTag s1
  if flagsData.length ≠ 8 then .error .invalidFlagsSize
  else
    let flags := getUint32 o (flagsData.take 4)
    let cls := getUint32 o (flagsData.drop 4)
    let isComplex := (flags &&& 2048) ≠ 0
    let (dimsTag, s3) ← readTag o s2
    let (dimsData, s4) ← readData dimsTag s3
    let dimensions := (List.range (dimsData.length / 4)).map
      (fun i => (Int.ofNat (getUint32 o ((dimsData.drop (4 * i)).take 4))))
    let (nameTag, s5) ← readTag o s4
    let (nameData, s6) ← readData nameTag s5
    let (realTag, s7) ← readTag o s6
    let (realData, s8) ← readData realTag s7
    let realValue := convertData o realData realTag.dataType cls
    if isComplex then do
      let (imagTag, s9) ← readTag o s8
      let (imagData, _) ← readData imagTag s9
      let imagValue := convertData o imagData imagTag.dataType cls
      .ok ⟨nameData, dimensions, classToDataType cls,
           .numericArray realValue imagValue dimensions (classToDataType cls), true, false⟩
    else
      .ok ⟨nameData, dimensions, classToDataType cls, realValue, false, false⟩

/-- `Parser.parseMatrix`: read the outer tag's payload whole and re-parse
it as an independent bounded byte range. -/
def parseMatrix (o : ByteOrder) (tag : DataTag) (s : List Nat) :
    Except PErr (Variable × List Nat) :=
  if s.length < tag.size then .error .truncated
  else do
    let v ← parseMatrixContent o (s.take tag.size)
    .ok (v, s.drop tag.size)

/-- The tag loop of `Parser.Parse`: `miMATRIX` elements are decoded,
`miCOMPRESSED` is a hard error, anything else is skipped; a clean EOF at a
tag boundary ends the file. Fuel bounds the recursion; every call site
supplies more fuel than the stream length. -/
def parseLoop (o : ByteOrder) : Nat → List Nat → List Variable → Except PErr (List Variable)
  | 0, _, _ => .error .outOfFuel
  | fuel + 1, s, acc =>
    match readTag o s with
    | .error .eofClean => .ok acc
    | .error e => .error e
    | .ok (tag, rest) =>
      if tag.dataType = miMATRIX then
        match parseMatrix o tag rest with
        | .error e => .error e
        | .ok (v, rest2) => parseLoop o fuel rest2 (acc ++ [v])
      else if tag.dataType = miCOMPRESSED then .error .compressedUnsupported
      else parseLoop o fuel (skipData tag rest) acc

/-- `NewParser` followed by `Parse`: read the 128-byte header, fix the
byte order, then run the tag loop on the remainder. -/
def parseV5 (input : List Nat) : Except PErr (Header × List Variable) := do
  if input.length < 128 then .error .truncated
  else
    let hdr ← parseHeader (input.take 128)
    let vars ← parseLoop hdr.order (input.length + 1) (input.drop 128) []
    .ok (hdr, vars)

/-- Encode one variable as a v5 file and decode it back, returning the
decoded variable list; `none` when either direction fails. -/
def encodeThenDecode (endian : List Nat) (v : Variable) : Option (List Variable) :=
  match v5FileBytes endian [] v with
  | .error _ => none
  | .ok bs =>
    match parseV5 bs with
    | .error _ => none
    | .ok (_, vars) => some vars

end Matlab

namespace Matlab

/-- The HDF5 signature checked by `isHDF5Format`. -/
def hdf5Sig : List Nat := [137, 72, 68, 70, 13, 10, 26, 10]

/-- `isHDF5Format`: the header begins with the HDF5 signature. -/
def isHDF5Format (header : List Nat) : Bool :=
  header.take 8 == hdf5Sig

/-- `isV5Format` from matfile.go: compares the byte slice
`header[124:128]` (four bytes) against the two-character endian tokens. -/
def isV5Format (header : List Nat) : Bool :=
  let endian := (header.drop 124).take 4
  endian == strIM || endian == strMI

/-- The three outcomes of the format dispatch in `Open`. -/
inductive OpenDispatch where
  | hdf5
  | v5
  | invalidFormat
deriving DecidableEq, Repr

/-- The dispatch made by `Open` on the first 128 bytes: HDF5 backend, v5
decoder, or the `ErrInvalidFormat` failure. -/
def openDispatch (header : List Nat) : OpenDispatch :=
  if isHDF5Format header then .hdf5
  else if isV5Format header then .v5
  else .invalidFormat

/-- The version tag of a `MatFileWriter` (`Version5`, `Version73`, or any
other integer value). -/
inductive WVersion where
  | v5
  | v73
  | other
deriving DecidableEq, Repr

/-- `MatFileWriter`: the version and the nil-ness of the three backend
handle fields (`true` means the handle is non-nil). -/
structure MatFileWriter where
  version : WVersion
  v73writer : Bool
  v5writer : Bool
  v5file : Bool
deriving DecidableEq, Repr

/-- The writer state `createV5` produces: both v5 handles set. -/
def createdV5 : MatFileWriter := ⟨.v5, false, true, true⟩

/-- The writer state `createV73` produces: the v7.3 handle set. -/
def createdV73 : MatFileWriter := ⟨.v73, true, false, false⟩

/-- Observable side effects performed by `MatFileWriter` methods:
closing a backend handle or delegating a variable write to a backend. -/
inductive WAction where
  | closeV73Backend
  | closeV5File
  | writeV73 (v : Variable)
  | writeV5 (v : Variable)
deriving DecidableEq, Repr

/-- `MatFileWriter.Close`: closes and nils the backend handle of the
active version on the first call, and is a no-op returning nil afterwards.
`backendResult` abstracts the error returned by the underlying close. -/
def closeWriter (w : MatFileWriter) (backendResult : Option Unit) :
    Option Unit × MatFileWriter × List WAction :=
  match w.version with
  | .v73 =>
    if w.v73writer then (backendResult, { w with v73writer := false }, [.closeV73Backend])
    else (none, w, [])
  | .v5 =>
    if w.v5file then (backendResult, { w with v5writer := false, v5file := false }, [.closeV5File])
    else (none, w, [])
  | .other => (none, w, [])

/-- Errors returned by `MatFileWriter.WriteVariable` before reaching a
backend. -/
inductive WriteVarErr where
  | nilVariable
  | writerNotInitialized
  | unsupportedVersion
deriving DecidableEq, Repr

/-- `MatFileWriter.WriteVariable`: nil check, then dispatch to the backend
writer of the active version when its handle is non-nil; the backend call
itself is abstracted as the emitted action. -/
def writeVarDispatch (w : MatFileWriter) (v : Option Variable) :
    Except WriteVarErr Unit × List WAction :=
  match v with
  | none => (.error .nilVariable, [])
  | some v =>
    match w.version with
    | .v73 =>
      if w.v73writer then (.ok (), [.writeV73 v]) else (.error .writerNotInitialized, [])
    | .v5 =>
      if w.v5writer then (.ok (), [.writeV5 v]) else (.error .writerNotInitialized, [])
    | .other => (.error .unsupportedVersion, [])

end Matlab

namespace Matlab

/-- Element width in bytes of each multi-byte numeric type id
(the divisors used by the corresponding `convertData` cases). -/
def elemWidth (ty : Nat) : Nat :=
  if ty = miINT16 then 2
  else if ty = miUINT16 then 2
  else if ty = miINT32 then 4
  else if ty = miUINT32 then 4
  else if ty = miSINGLE then 4
  else if ty = miDOUBLE then 8
  else if ty = miINT64 then 8
  else if ty = miUINT64 then 8
  else 1

/-- The multi-byte numeric type ids. -/
def multiByteTypes : List Nat :=
  [miINT16, miUINT16, miINT32, miUINT32, miSINGLE, miDOUBLE, miINT64, miUINT64]

/-- The variable written by the repository's own round-trip test: name A,
dimensions [3], double data 1.0, 2.0, 3.0 (IEEE bit patterns). -/
def exampleVar : Variable :=
  ⟨[65], [3], .double,
   .f64s [4607182418800017408, 4611686018427387904, 4613937818241073152],
   false, false⟩

/-- A second concrete variable: name B, dimensions [2], double data
1.5, 2.5. -/
def exampleVarB : Variable :=
  ⟨[66], [2], .double, .f64s [4609434218613702656, 4612811918334230528],
   false, false⟩

/-- Bytes produced for `exampleVarB` with the little-endian token. -/
def streamTokIM : List Nat := (v5FileBytes strIM [] exampleVarB).toOption.getD []

/-- Bytes produced for `exampleVarB` with the big-endian token. -/
def streamTokMI : List Nat := (v5FileBytes strMI [] exampleVarB).toOption.getD []

/-- A variable with dimensions 2^31-1 by 2^31-1, whose element product
2^62 - 2^32 + 1 fits in a 64-bit signed integer. -/
def bigDimsVar : Variable :=
  ⟨[65], [2147483647, 2147483647], .double, .f64s [4607182418800017408],
   false, false⟩

/-- A variable with dimensions 2^32 by 2^32, whose element product
overflows a 64-bit signed integer. -/
def hugeDimsVar : Variable :=
  ⟨[65], [4294967296, 4294967296], .double, .f64s [4607182418800017408],
   false, false⟩

/-- A variable with dimensions [2, 3]. -/
def dims23Var : Variable :=
  ⟨[67], [2, 3], .double,
   .f64s [4607182418800017408, 4607182418800017408, 4607182418800017408,
          4607182418800017408, 4607182418800017408, 4607182418800017408],
   false, false⟩

/-- A stream starting with a compact tag (first word 0x00020001: size 2,
type id 1) whose inline payload bytes are 170, 187, followed by the bytes
204, 221, 7, 7 of the next element. -/
def compactStream : List Nat := [1, 0, 2, 0, 170, 187, 0, 0, 204, 221, 7, 7]

/-- A 128-byte non-HDF5 header whose bytes 126-127 are the M, I endian
token. -/
def sampleV5Header : List Nat := List.replicate 126 0 ++ strMI

/-- The matrix element bytes emitted for `exampleVar` with little-endian
order. -/
def exampleMatBytes : List Nat := (writeMatrix .le exampleVar).toOption.getD []

/-- Variables with the four invalid shapes of the validation scenarios:
empty name, 64-byte name, a zero dimension at index 1, and nil data. -/
def emptyNameVar : Variable :=
  ⟨[], [1], .double, .f64s [4607182418800017408], false, false⟩

/-- Validation scenario: a 64-byte name. -/
def longNameVar : Variable :=
  ⟨List.replicate 64 97, [1], .double, .f64s [4607182418800017408], false, false⟩

/-- Validation scenario: dimensions [3, 0, 2]. -/
def zeroDimVar : Variable :=
  ⟨[71], [3, 0, 2], .double, .f64s [4607182418800017408], false, false⟩

/-- Validation scenario: nil data. -/
def nilDataVar : Variable :=
  ⟨[72], [1], .double, .gnil, false, false⟩

end Matlab

namespace Matlab

/-- Decidable equality for `Except`, used to evaluate the embedded
codec on concrete inputs. -/
instance {e a : Type} [DecidableEq e] [DecidableEq a] : DecidableEq (Except e a) :=
  fun x y =>
    match x, y with
    | .ok u, .ok v =>
      if h : u = v then .isTrue (by rw [h]) else .isFalse (by simp [h])
    | .error u, .error v =>
      if h : u = v then .isTrue (by rw [h]) else .isFalse (by simp [h])
    | .ok _, .error _ => .isFalse (by simp)
    | .error _, .ok _ => .isFalse (by simp)

/-- Claim C1. Round-trip identity: the spec and the repository's own
round-trip tests require that decoding the encoder's output restores the
written variable. The code violates this: `NewWriter` maps the I, M token
to little endian and M, I to big endian, while `parseHeader` maps M, I to
little endian and I, M to big endian, so the parser reads every multi-byte
word of the encoder's output in the opposite order, misreads the outer
matrix tag, skips it, and returns a file with no variables at all — for
both byte-order tokens. -/
theorem c1_roundtrip_loses_variable :
    encodeThenDecode strMI exampleVar = some [] ∧
    encodeThenDecode strIM exampleVar = some [] ∧
    encodeThenDecode strMI exampleVar ≠ some [exampleVar] ∧
    encodeThenDecode strIM exampleVar ≠ some [exampleVar] := by
  exact ⟨by decide, by decide, by decide, by decide⟩

/-- Claim C2. Endianness scenario: the two byte streams do differ, but
neither stream decodes to the written variable — both decodes return zero
variables, because the writer's and the header parser's endian-token
mappings are flipped relative to each other. The repository's own
`TestParseHeader` asserts the writer's mapping, which `parseHeader`
contradicts. -/
theorem c2_endian_streams_lose_variable :
    (v5FileBytes strIM [] exampleVarB).isOk = true ∧
    (v5FileBytes strMI [] exampleVarB).isOk = true ∧
    streamTokIM ≠ streamTokMI ∧
    encodeThenDecode strIM exampleVarB = some [] ∧
    encodeThenDecode strMI exampleVarB = some [] := by
  exact ⟨by decide, by decide, by decide, by decide, by decide⟩

/-- Claim C4, counterexample: a variable with dimensions 2^31-1 by 2^31-1
passes `validateVariable` and is written without any `DimensionOverflow`
error, because its element product 2^62 - 2^32 + 1 does not exceed the
64-bit signed bound checked by the validator. -/
theorem c4_big_dims_accepted :
    validateVariable bigDimsVar = .ok () ∧
    (writeVariable .be bigDimsVar).isOk = true := by
  exact ⟨by decide, by decide⟩

/-- Claim C5. Compact tags: the claim (and `readTag`'s own doc comment)
says the 4 bytes after the tag word are the payload and no separate read
occurs. In the code, `readTag` consumes the 8-byte block but discards its
last 4 bytes, and `readData` then reads the payload again from the stream
(with no padding skip), so a compact element consumes 8 + size bytes and
yields the wrong payload. Here the inline bytes are 170, 187, yet the
payload returned is 204, 221 — the bytes following the 8-byte block. -/
theorem c5_compact_payload_reread :
    readTag .le compactStream = .ok (⟨1, 2, true⟩, [204, 221, 7, 7]) ∧
    (compactStream.drop 4).take 4 = [170, 187, 0, 0] ∧
    readData ⟨1, 2, true⟩ [204, 221, 7, 7] = .ok ([204, 221], [7, 7]) ∧
    ([204, 221] : List Nat) ≠ [170, 187] := by
  exact ⟨by decide, by decide, by decide, by decide⟩

/-- Claim C8. Write-side validation rejects, with a typed error and before
anything is emitted (`writeVariable` returns bytes only on success): an
empty name; a 64-byte name; the non-positive dimension at index 1 of
[3, 0, 2], cited in the error; and nil data. -/
theorem c8_validation_scenarios :
    writeVariable .be emptyNameVar = .error .nameRequired ∧
    writeVariable .be longNameVar = .error (.nameTooLong 64) ∧
    writeVariable .be zeroDimVar = .error (.dimNotPositive 1 0) ∧
    writeVariable .be nilDataVar = .error .dataRequired ∧
    writeVariable .le emptyNameVar = .error .nameRequired := by
  exact ⟨by decide, by decide, by decide, by decide, by decide⟩

/-- Claim C10. Writer-handle lifecycle: for a v5 or v7.3 writer as
produced by `Create`, after a first `Close` (whatever the backend close
returned) every further `Close` returns nil performing no action, and
every further `WriteVariable` fails with the not-initialized error without
delegating any write to a backend. -/
theorem c10_writer_lifecycle :
    ∀ (w : MatFileWriter) (r1 r2 : Option Unit) (v : Variable),
      w = createdV5 ∨ w = createdV73 →
      closeWriter (closeWriter w r1).2.1 r2 = (none, (closeWriter w r1).2.1, []) ∧
      writeVarDispatch (closeWriter w r1).2.1 (some v) =
        (.error .writerNotInitialized, []) := by
  rintro w r1 r2 v (rfl | rfl) <;> exact ⟨rfl, rfl⟩

/-- Witness for the writer-lifecycle theorem at the concrete v5 writer. -/
theorem c10_writer_lifecycle_witness :
    (createdV5 = createdV5 ∨ createdV5 = createdV73) ∧
    closeWriter (closeWriter createdV5 none).2.1 none =
      (none, (closeWriter createdV5 none).2.1, []) ∧
    writeVarDispatch (closeWriter createdV5 none).2.1 (some exampleVar) =
      (.error .writerNotInitialized, []) :=
  ⟨Or.inl rfl, c10_writer_lifecycle createdV5 none none exampleVar (Or.inl rfl)⟩

end Matlab

namespace Matlab

/-- Claim C3. Format dispatch in `Open`: the claim says headers whose
bytes 126-127 carry a valid endian token are dispatched to the v5 decoder
and only unrecognized tokens yield `ErrInvalidFormat`. In the code,
`isV5Format` compares the four-byte slice `header[124:128]` against the
two-character tokens, which can never match, so every non-HDF5 header —
including ones whose bytes 126-127 are the M, I token — is rejected with
`ErrInvalidFormat` instead of being dispatched to the v5 decoder. -/
theorem c3_open_rejects_valid_v5_headers :
    (∀ h : List Nat, h.length = 128 → isV5Format h = false) ∧
    (sampleV5Header.drop 126).take 2 = strMI ∧
    isHDF5Format sampleV5Header = false ∧
    openDispatch sampleV5Header = .invalidFormat := by
  refine ⟨?_, by decide, by decide, by decide⟩
  intro h hlen
  have hl : ((h.drop 124).take 4).length = 4 := by
    simp [List.length_take, List.length_drop, hlen]
  simp only [isV5Format]
  rw [Bool.or_eq_false_iff]
  constructor
  · rw [beq_eq_false_iff_ne]
    intro he
    rw [he] at hl
    simp [strIM] at hl
  · rw [beq_eq_false_iff_ne]
    intro he
    rw [he] at hl
    simp [strMI] at hl

/-- Witness for the dispatch theorem at the concrete 128-byte header with
the M, I token. -/
theorem c3_open_rejects_valid_v5_headers_witness :
    sampleV5Header.length = 128 ∧ isV5Format sampleV5Header = false :=
  ⟨by decide, c3_open_rejects_valid_v5_headers.1 sampleV5Header (by decide)⟩

/-- Claim C4, amended: the validator walks the dimensions with a running
64-bit signed product, rejecting a non-positive dimension and checking
accumulator > MAX_INT64 / dimension before each multiplication; [2, 3]
passes and reports element count 6; [2^31-1, 2^31-1] passes validation
(its product fits in int64) and is written, while a product exceeding
MAX_INT64, such as [2^32, 2^32], is rejected with the overflow error
before any bytes are produced. -/
theorem c4_overflow_check_amended :
    (∀ (i : Nat) (total d : Int) (rest : List Int), 0 < d → total > maxInt64 / d →
      validateDimsLoop i total (d :: rest) = .error .dimsOverflow) ∧
    (∀ (i : Nat) (total d : Int) (rest : List Int), 0 < d → total ≤ maxInt64 / d →
      validateDimsLoop i total (d :: rest) = validateDimsLoop (i + 1) (total * d) rest) ∧
    validateDimsLoop 0 1 [2, 3] = .ok 6 ∧
    validateVariable dims23Var = .ok () ∧
    validateVariable bigDimsVar = .ok () ∧
    writeVariable .be hugeDimsVar = .error .dimsOverflow := by
  refine ⟨?_, ?_, by decide, by decide, by decide, by decide⟩
  · intro i total d rest hd hgt
    simp only [validateDimsLoop]
    rw [if_neg (by omega), if_pos hgt]
  · intro i total d rest hd hle
    simp only [validateDimsLoop]
    rw [if_neg (by omega), if_neg (not_lt.mpr hle)]

/-- Witness for the amended overflow check at concrete inputs: the guard
fires for the accumulator 2^32 against the dimension 2^32, and steps past
the dimension 3 with accumulator 2. -/
theorem c4_overflow_check_amended_witness :
    (0 : Int) < 4294967296 ∧ (4294967296 : Int) > maxInt64 / 4294967296 ∧
    validateDimsLoop 1 4294967296 [(4294967296 : Int)] = .error .dimsOverflow ∧
    (0 : Int) < 3 ∧ (2 : Int) ≤ maxInt64 / 3 ∧
    validateDimsLoop 1 2 [(3 : Int)] = validateDimsLoop 2 6 [] :=
  ⟨by decide, by decide,
   c4_overflow_check_amended.1 1 4294967296 4294967296 [] (by decide) (by decide),
   by decide, by decide,
   c4_overflow_check_amended.2.1 1 2 3 [] (by decide) (by decide)⟩

end Matlab

namespace Matlab

/-- The element count produced by the guarded decode loop is the floor of
the payload length divided by the element width. -/
theorem decodeLoop_length {α : Type} (w : Nat) (f : List Nat → α) (d : List Nat) :
    (decodeLoop w f d).length = d.length / w := by
  have hle := Nat.div_mul_le_self d.length w
  unfold decodeLoop
  by_cases h0 : d.length / w = 0
  · simp [h0]
  · rw [if_neg]
    · simp
    · simp only [not_or]
      exact ⟨h0, by omega⟩

/-- Appending a remainder shorter than the element width to a payload of
whole elements does not change the decoded elements. -/
theorem decodeLoop_append {α : Type} (w : Nat) (hw : 0 < w) (f : List Nat → α)
    (d r : List Nat) (hd : w ∣ d.length) (hr : r.length < w) :
    decodeLoop w f (d ++ r) = decodeLoop w f d := by
  obtain ⟨q, hq⟩ := hd
  have hlen : (d ++ r).length = w * q + r.length := by simp [hq]
  have hcount : (d ++ r).length / w = q := by
    rw [hlen, Nat.mul_add_div hw, Nat.div_eq_of_lt hr, Nat.add_zero]
  have hcountd : d.length / w = q := by
    rw [hq, Nat.mul_div_cancel_left q hw]
  have hnlt1 : ¬ (d ++ r).length < q * w := by
    rw [hlen, Nat.mul_comm q w]
    omega
  have hnlt2 : ¬ d.length < q * w := by
    rw [hq, Nat.mul_comm q w]
    omega
  have hread : ∀ i ∈ List.range q, ((d ++ r).drop (w * i)).take w = (d.drop (w * i)).take w := by
    intro i hi
    rw [List.mem_range] at hi
    have hwi : w * i + w ≤ d.length := by
      rw [hq]
      calc w * i + w = w * (i + 1) := by ring
        _ ≤ w * q := Nat.mul_le_mul_left w hi
    rw [List.drop_append_of_le_length (by omega), List.take_append_of_le_length]
    rw [List.length_drop]
    omega
  simp only [decodeLoop, hcount, hcountd]
  by_cases h0 : q = 0
  · simp [h0]
  · rw [if_neg (by simp only [not_or]; exact ⟨h0, hnlt1⟩),
        if_neg (by simp only [not_or]; exact ⟨h0, hnlt2⟩)]
    exact List.map_congr_left (fun i hi => by rw [hread i hi])

/-- Claim C9. Tolerant decode: for every multi-byte element type, the
converter decodes exactly floor(length / width) elements — it is a total
function, never an error — and a trailing remainder shorter than the
element width is silently discarded without affecting the decoded
elements, so no partial element is ever decoded. -/
theorem c9_tolerant_decode :
    ∀ ty ∈ multiByteTypes, ∀ (o : ByteOrder) (c : Nat) (d r : List Nat),
      goValueLen (convertData o d ty c) = d.length / elemWidth ty ∧
      (elemWidth ty ∣ d.length → r.length < elemWidth ty →
        convertData o (d ++ r) ty c = convertData o d ty c) := by
  intro ty hty o c d r
  simp only [multiByteTypes, List.mem_cons, List.not_mem_nil, or_false] at hty
  rcases hty with rfl | rfl | rfl | rfl | rfl | rfl | rfl | rfl <;>
    refine ⟨?_, fun hd hr => ?_⟩ <;>
    simp [convertData, goValueLen, elemWidth, miINT8, miUINT8, miINT16, miUINT16,
      miINT32, miUINT32, miSINGLE, miDOUBLE, miINT64, miUINT64, miUTF8,
      decodeLoop_length] <;>
    exact decodeLoop_append _ (by omega) _ d r
      (by simpa [elemWidth, miINT8, miUINT8, miINT16, miUINT16, miINT32, miUINT32,
        miSINGLE, miDOUBLE, miINT64, miUINT64, miUTF8] using hd)
      (by simpa [elemWidth, miINT8, miUINT8, miINT16, miUINT16, miINT32, miUINT32,
        miSINGLE, miDOUBLE, miINT64, miUINT64, miUTF8] using hr)

/-- Witness for the tolerant decode at a concrete input: type id 3
(int16), payload bytes 1, 0 plus the dangling byte 5 decode to the single
element 1, the dangling byte being discarded. -/
theorem c9_tolerant_decode_witness :
    miINT16 ∈ multiByteTypes ∧
    elemWidth miINT16 ∣ ([1, 0] : List Nat).length ∧
    ([5] : List Nat).length < elemWidth miINT16 ∧
    convertData .le ([1, 0] ++ [5]) miINT16 0 = convertData .le [1, 0] miINT16 0 ∧
    goValueLen (convertData .le [1, 0, 5] miINT16 0) =
      ([1, 0, 5] : List Nat).length / elemWidth miINT16 :=
  ⟨by decide, by decide, by decide,
   (c9_tolerant_decode miINT16 (by decide) .le 0 [1, 0] [5]).2 (by decide) (by decide),
   (c9_tolerant_decode miINT16 (by decide) .le 0 [1, 0, 5] []).1⟩

end Matlab

namespace Matlab

/-- Each multi-byte put emits exactly four bytes. -/
theorem putUint32_length (o : ByteOrder) (x : Nat) : (putUint32 o x).length = 4 := by
  cases o <;> rfl

/-- `readTag` on a stream starting with a normal tag: any 4 tag bytes
whose upper 16 bits are outside 1..4, followed by a 4-byte size word,
yield the regular-format tag after the ceiling check, consuming exactly
the 8 tag bytes. -/
theorem readTag_normal (o : ByteOrder) (tagBytes sizeBytes rest : List Nat)
    (h4 : tagBytes.length = 4) (h8 : sizeBytes.length = 4)
    (hnorm : ¬ (0 < getUint32 o tagBytes / 65536 ∧ getUint32 o tagBytes / 65536 ≤ 4)) :
    readTag o (tagBytes ++ sizeBytes ++ rest) =
      if getUint32 o sizeBytes > maxReasonableSize then .error .tagTooLarge
      else .ok (⟨getUint32 o tagBytes, getUint32 o sizeBytes, false⟩, rest) := by
  have hA : (tagBytes ++ sizeBytes).length = 8 := by simp [h4, h8]
  have hslen : (tagBytes ++ sizeBytes ++ rest).length = 8 + rest.length := by
    simp only [List.length_append, h4, h8]
  have hne : tagBytes ++ sizeBytes ++ rest ≠ [] := by
    intro he
    rw [he] at hslen
    simp only [List.length_nil] at hslen
    omega
  have htake : (tagBytes ++ sizeBytes ++ rest).take 8 = tagBytes ++ sizeBytes :=
    List.take_left' hA
  have hdrop : (tagBytes ++ sizeBytes ++ rest).drop 8 = rest :=
    List.drop_left' hA
  have ht4 : (tagBytes ++ sizeBytes).take 4 = tagBytes := by
    rw [List.take_append_of_le_length (by omega), List.take_of_length_le (by omega)]
  have hd4 : (tagBytes ++ sizeBytes).drop 4 = sizeBytes := by
    rw [List.drop_append_of_le_length (by omega),
        List.drop_eq_nil_of_le (by omega), List.nil_append]
  simp only [readTag, htake, hdrop, ht4, hd4, hslen]
  rw [if_neg hne, if_neg (by omega), if_neg hnorm]

/-- Claim C6. Tag size ceiling: for every normal tag (any first word whose
upper 16 bits lie outside 1..4), a declared size of exactly 2^31 bytes is
accepted with no error, while 2^31 + 1 and 0xFFFFFFFF are rejected with
the tag-too-large error; `readTag` rejects before `readData` would
allocate or consume any payload. -/
theorem c6_tag_size_ceiling :
    ∀ (o : ByteOrder) (b0 b1 b2 b3 : Nat) (rest : List Nat),
      ¬ (0 < getUint32 o [b0, b1, b2, b3] / 65536 ∧
          getUint32 o [b0, b1, b2, b3] / 65536 ≤ 4) →
      readTag o ([b0, b1, b2, b3] ++ putUint32 o 2147483648 ++ rest) =
        .ok (⟨getUint32 o [b0, b1, b2, b3], 2147483648, false⟩, rest) ∧
      readTag o ([b0, b1, b2, b3] ++ putUint32 o 2147483649 ++ rest) =
        .error .tagTooLarge ∧
      readTag o ([b0, b1, b2, b3] ++ putUint32 o 4294967295 ++ rest) =
        .error .tagTooLarge := by
  intro o b0 b1 b2 b3 rest h
  have hget : ∀ x : Nat, x < 4294967296 → getUint32 o (putUint32 o x) = x := by
    intro x hx
    cases o <;>
      simp only [putUint32, getUint32, List.getD_cons_zero, List.getD_cons_succ] <;>
      omega
  refine ⟨?_, ?_, ?_⟩ <;>
    rw [readTag_normal o _ _ rest (by rfl) (by rw [putUint32_length]) h] <;>
    rw [hget _ (by omega)] <;>
    simp [maxReasonableSize]

/-- Witness for the tag-size ceiling at the concrete first word with type
id 9 read little-endian. -/
theorem c6_tag_size_ceiling_witness :
    ¬ (0 < getUint32 .le [9, 0, 0, 0] / 65536 ∧
        getUint32 .le [9, 0, 0, 0] / 65536 ≤ 4) ∧
    readTag .le ([9, 0, 0, 0] ++ putUint32 .le 2147483648 ++ []) =
      .ok (⟨getUint32 .le [9, 0, 0, 0], 2147483648, false⟩, []) ∧
    readTag .le ([9, 0, 0, 0] ++ putUint32 .le 2147483649 ++ []) =
      .error .tagTooLarge ∧
    readTag .le ([9, 0, 0, 0] ++ putUint32 .le 4294967295 ++ []) =
      .error .tagTooLarge :=
  ⟨by decide,
   (c6_tag_size_ceiling .le 9 0 0 0 [] (by decide)).1,
   (c6_tag_size_ceiling .le 9 0 0 0 [] (by decide)).2.1,
   (c6_tag_size_ceiling .le 9 0 0 0 [] (by decide)).2.2⟩

/-- The length and zero-padding law of `wrapInTag`: the emitted block is
the 8 tag bytes, the payload, and exactly `(8 - size mod 8) mod 8` zero
bytes. -/
theorem wrapInTag_spec (o : ByteOrder) (t : Nat) (d : List Nat) :
    (wrapInTag o t d).length = 8 + d.length + (8 - d.length % 8) % 8 ∧
    (wrapInTag o t d).drop (8 + d.length) =
      List.replicate ((8 - d.length % 8) % 8) 0 := by
  have hw : wrapInTag o t d =
      (putUint32 o t ++ putUint32 o d.length ++ d) ++
        List.replicate ((8 - d.length % 8) % 8) 0 := by
    simp [wrapInTag, List.append_assoc]
  constructor
  · rw [hw]
    simp [putUint32_length]
    omega
  · rw [hw]
    exact List.drop_left' (by simp [putUint32_length]; omega)

end Matlab

namespace Matlab

/-- Claim C7. Padding law: every block the encoder wraps in a normal tag
carries exactly `(8 - size mod 8) mod 8` zero padding bytes after its
payload — 0, 7, 4, 0, 6 bytes for payload sizes 0, 1, 4, 8, 10 — and the
outer matrix element emitted by `writeMatrix` has the same shape around
its content. -/
theorem c7_padding_law :
    (∀ (o : ByteOrder) (t : Nat) (d : List Nat),
      (wrapInTag o t d).length = 8 + d.length + (8 - d.length % 8) % 8 ∧
      (wrapInTag o t d).drop (8 + d.length) =
        List.replicate ((8 - d.length % 8) % 8) 0) ∧
    (∀ (o : ByteOrder) (t : Nat),
      (wrapInTag o t []).length = 8 ∧
      (wrapInTag o t [1]).length = 16 ∧
      (wrapInTag o t [1]).drop 9 = List.replicate 7 0 ∧
      (wrapInTag o t [1, 2, 3, 4]).length = 16 ∧
      (wrapInTag o t [1, 2, 3, 4]).drop 12 = List.replicate 4 0 ∧
      (wrapInTag o t [1, 2, 3, 4, 5, 6, 7, 8]).length = 16 ∧
      (wrapInTag o t [1, 2, 3, 4, 5, 6, 7, 8, 9, 10]).length = 24 ∧
      (wrapInTag o t [1, 2, 3, 4, 5, 6, 7, 8, 9, 10]).drop 18 =
        List.replicate 6 0) ∧
    (∀ (o : ByteOrder) (v : Variable) (bs : List Nat), writeMatrix o v = .ok bs →
      ∃ c, encodeMatrixContent o v = .ok c ∧
        bs = putUint32 o miMATRIX ++ putUint32 o c.length ++ c ++
          List.replicate ((8 - c.length % 8) % 8) 0) := by
  refine ⟨fun o t d => wrapInTag_spec o t d, fun o t => ?_, fun o v bs h => ?_⟩
  · exact ⟨by simpa using (wrapInTag_spec o t []).1,
      by simpa using (wrapInTag_spec o t [1]).1,
      by simpa using (wrapInTag_spec o t [1]).2,
      by simpa using (wrapInTag_spec o t [1, 2, 3, 4]).1,
      by simpa using (wrapInTag_spec o t [1, 2, 3, 4]).2,
      by simpa using (wrapInTag_spec o t [1, 2, 3, 4, 5, 6, 7, 8]).1,
      by simpa using (wrapInTag_spec o t [1, 2, 3, 4, 5, 6, 7, 8, 9, 10]).1,
      by simpa using (wrapInTag_spec o t [1, 2, 3, 4, 5, 6, 7, 8, 9, 10]).2⟩
  · simp only [writeMatrix, Bind.bind, Except.bind] at h
    cases hc : encodeMatrixContent o v with
    | error e =>
      rw [hc] at h
      exact absurd h (by simp)
    | ok c =>
      rw [hc] at h
      simp only [Except.ok.injEq] at h
      exact ⟨c, rfl, h.symm⟩

/-- Witness for the padding law's outer-matrix clause at the round-trip
test variable encoded little-endian. -/
theorem c7_padding_law_witness :
    writeMatrix .le exampleVar = .ok exampleMatBytes ∧
    (∃ c, encodeMatrixContent .le exampleVar = .ok c ∧
      exampleMatBytes = putUint32 .le miMATRIX ++ putUint32 .le c.length ++ c ++
        List.replicate ((8 - c.length % 8) % 8) 0) :=
  ⟨by decide, c7_padding_law.2.2 .le exampleVar exampleMatBytes (by decide)⟩

end Matlab
